import Mathlib

/-
Verification development for Native-Plugin-Lib: a shallow embedding of the
binary-image inspection pipeline (src/lib.rs, src/c.rs, src/rstr.rs,
src/blob.rs) together with theorems settling the specification claims.

Modelling conventions:
  * a machine byte is a `Nat` below 256; a buffer is a `List Nat`;
  * the PE parsing and address translation performed by the external
    `pelite` crate (whose source is not part of this repository) is modelled
    from the specification's ImageReader contract over a `PeImage` value;
  * fallible operations return `Option`/a result inductive; an execution
    that reaches undefined behaviour (an out-of-bounds access) is marked
    explicitly (`LoadResult.ub`, or `none` for a string read whose scan for
    a terminator runs past the end of the buffer).
-/

/-- A machine byte, kept as a `Nat`; all byte values written below are < 256. -/
abbrev Byte := Nat

/-- Little-endian value of a byte list (least significant byte first), as the
x86-64 target reads an in-memory integer. -/
def leVal : List Byte → Nat
  | [] => 0
  | b :: rest => b % 256 + 256 * leVal rest

/-- Little-endian encoding of `v` into `n` bytes (test-image construction
helper; inverse of `leVal` for values that fit). -/
def leBytes : Nat → Nat → List Byte
  | 0, _ => []
  | n + 1, v => v % 256 :: leBytes n (v / 256)

/-- UTF-8 bytes of an ASCII string (every string used in the theorems below is
ASCII, where the UTF-8 encoding is the code point itself). -/
def strBytes (s : String) : List Byte := s.data.map (fun c => c.toNat)

/-- Modelled from the spec: one entry of the PE section table, the subset of
fields the ImageReader contract uses: "Section table: ordered list of
(VirtualAddress, VirtualSize, PointerToRawData); used to map any RVA to a
file offset by containment". -/
structure SectionHeader where
  virtualAddress : Nat
  virtualSize : Nat
  pointerToRawData : Nat
deriving DecidableEq

/-- Modelled from the spec: the parsed view of an executable image that the
external `pelite` crate produces for `PeFile::from_bytes`: the declared image
base, the virtual size ceiling declared by the headers, the export directory
(name to RVA, `none` standing for an export entry without a symbol RVA), and
the section table. -/
structure PeImage where
  imageBase : Nat
  sizeOfImage : Nat
  exports : List (String × Option Nat)
  sections : List SectionHeader
deriving DecidableEq

/-- Whether `rva` lies in the section's virtual address range. -/
def sectionContains (s : SectionHeader) (rva : Nat) : Bool :=
  decide (s.virtualAddress ≤ rva ∧ rva < s.virtualAddress + s.virtualSize)

/-- Modelled from the spec: `rva_to_file_offset` locates the section whose
virtual-address range contains `rva`, computes
`rva - VirtualAddress + PointerToRawData`, and fails if no section contains
the RVA or the computed offset exceeds the buffer length. Stands for
`pelite`'s `Pe::rva_to_file_offset` used at src/lib.rs:216 and :227. -/
def rva_to_file_offset (img : PeImage) (bufLen rva : Nat) : Option Nat :=
  match img.sections.find? (fun s => sectionContains s rva) with
  | none => none
  | some s =>
      let off := rva - s.virtualAddress + s.pointerToRawData
      if off ≤ bufLen then some off else none

/-- Modelled from the spec: `va_to_rva` subtracts the image's declared base
address and fails if the result would be negative or reaches the image's
virtual size ceiling. Stands for `pelite`'s `Pe::va_to_rva` used at
src/lib.rs:226. -/
def va_to_rva (img : PeImage) (va : Nat) : Option Nat :=
  if img.imageBase ≤ va ∧ va - img.imageBase < img.sizeOfImage then
    some (va - img.imageBase)
  else none

/-- Modelled from the spec: export lookup by exact name over the export
directory. `none`: no entry of that name (`get_export` fails, src/lib.rs:210);
`some none`: an entry without a symbol RVA (`.symbol()` is `None`,
src/lib.rs:212). -/
def get_export (img : PeImage) (name : String) : Option (Option Nat) :=
  (img.exports.find? (fun e => e.1 == name)).map (fun e => e.2)

/-- From src/lib.rs:27: `pub const DATA_VERSION: usize = 1;`. -/
def DATA_VERSION : Nat := 1

/-- From src/lib.rs:57-63: the `Version` struct, three `u16` components. -/
structure Version where
  major : Nat
  minor : Nat
  patch : Nat
deriving DecidableEq

/-- The raw `Plugin` record as it sits in the file (src/lib.rs:34-44,
`#[repr(C)]`, 64-bit target): `data_ver : usize` at offset 0, three `RStr`
pointers (each one 8-byte virtual address) at offsets 8, 16, 24, and the
three `u16` version components at offsets 32, 34, 36; total size 40 with two
trailing padding bytes. The string fields here are the untranslated virtual
addresses read from the file. -/
structure PluginRecord where
  data_ver : Nat
  name_va : Nat
  author_va : Nat
  description_va : Nat
  version : Version
deriving DecidableEq

/-- Little-endian integer read of `n` bytes at offset `off` of `buf`. -/
def sliceLE (buf : List Byte) (off n : Nat) : Nat :=
  leVal ((buf.drop off).take n)

/-- From src/lib.rs:218-223: the raw dereference
`*alloc.byte_add(offset).cast::<Plugin>()`. The source performs this 40-byte
typed copy with no bound check of its own; the model returns `none` exactly
when the 40 bytes starting at `off` are not all inside the buffer, which in
the source is an out-of-bounds read of the allocation. -/
def read_plugin_record (buf : List Byte) (off : Nat) : Option PluginRecord :=
  if off + 40 ≤ buf.length then
    some
      { data_ver := sliceLE buf off 8
        name_va := sliceLE buf (off + 8) 8
        author_va := sliceLE buf (off + 16) 8
        description_va := sliceLE buf (off + 24) 8
        version :=
          { major := sliceLE buf (off + 32) 2
            minor := sliceLE buf (off + 34) 2
            patch := sliceLE buf (off + 36) 2 } }
  else none

/-- The decoded `Plugin` value built at src/lib.rs:233-239: the `data_ver`
and `version` fields are copied from the record, and each string field is
the translated file offset of the string inside the buffer (standing for the
rebased `RStr` pointer `alloc.byte_add(offset)`). -/
structure Plugin where
  data_ver : Nat
  name : Nat
  author : Nat
  description : Nat
  version : Version
deriving DecidableEq

/-- Error outcomes of `get_plugin_data` (src/lib.rs:176-248). The source
returns `eyre::Result`; the constructors stand for the distinguishable error
paths: file open/metadata failure, `PeFile::from_bytes` failure ("failed to
parse file"), `get_export` failure ("symbol not found"), an export without a
symbol RVA ("failed to find symbol address"), and a propagated `pelite`
address-translation failure. -/
inductive LoadErr where
  | ioError
  | formatError
  | symbolNotFound
  | nullSymbol
  | peError
deriving DecidableEq

/-- Outcome of a load: a decoded plugin, a returned error, or undefined
behaviour (`ub`): an execution in which the source performs an out-of-bounds
access instead of returning. -/
inductive LoadResult where
  | ok (p : Plugin)
  | err (e : LoadErr)
  | ub
deriving DecidableEq

/-- From src/lib.rs:225-231, the closure `va_to_rstr`: translate the virtual
address to an RVA, the RVA to a file offset, and build the `RStr` from the
rebased pointer (`RStr::from_ptr`, which stores the pointer and checks
nothing). The result is the file offset the `RStr` points at. -/
def va_to_rstr (img : PeImage) (buf : List Byte) (va : Nat) : Option Nat :=
  match va_to_rva img va with
  | none => none
  | some rva => rva_to_file_offset img buf.length rva

/-- From src/lib.rs:233-239: the second `Plugin` construction, translating
the three string virtual addresses of the raw record and copying `data_ver`
and `version` unchanged. A failed translation propagates as an error
(the `?` operator on each `va_to_rstr` call). -/
def decode_raw (img : PeImage) (buf : List Byte) (r : PluginRecord) : LoadResult :=
  match va_to_rstr img buf r.name_va with
  | none => .err .peError
  | some nameOff =>
    match va_to_rstr img buf r.author_va with
    | none => .err .peError
    | some authorOff =>
      match va_to_rstr img buf r.description_va with
      | none => .err .peError
      | some descOff =>
        .ok
          { data_ver := r.data_ver
            name := nameOff
            author := authorOff
            description := descOff
            version := r.version }

/-- What has become of the file-buffer allocation (`alloc` at src/lib.rs:194)
when `get_plugin_data` returns: never made (the function failed before the
allocation), owned by the returned `PluginData` (whose `Drop` at
src/lib.rs:136-142 releases it), or leaked: the raw pointer went out of scope
on an error return with no `alloc::dealloc` call on that path. -/
inductive AllocFate where
  | notAllocated
  | ownedByResult
  | leaked
deriving DecidableEq

/-- From src/lib.rs:176-248, `get_plugin_data`, with the fate of the buffer
allocation made explicit. `file` is the outcome of `File::open` plus
`metadata` plus the `io::copy` into the buffer: `none` for an open/metadata
failure (before the allocation), `some bytes` for a successful read of the
whole file. After the allocation the source has no `alloc::dealloc` on any
error return, so every error return past that point carries `.leaked`; on
success the allocation is moved into the returned `PluginData`. The granule
rounding and the two asserts at src/lib.rs:188-191 affect only the layout's
alignment, not the bytes, and are not modelled. -/
def get_plugin_data_traced (parse : List Byte → Option PeImage)
    (file : Option (List Byte)) : LoadResult × AllocFate :=
  match file with
  | none => (.err .ioError, .notAllocated)
  | some buf =>
    match parse buf with
    | none => (.err .formatError, .leaked)
    | some img =>
      match get_export img "PLUGIN_DATA" with
      | none => (.err .symbolNotFound, .leaked)
      | some none => (.err .nullSymbol, .leaked)
      | some (some rva) =>
        match rva_to_file_offset img buf.length rva with
        | none => (.err .peError, .leaked)
        | some off =>
          match read_plugin_record buf off with
          | none => (.ub, .leaked)
          | some r =>
            match decode_raw img buf r with
            | .ok p => (.ok p, .ownedByResult)
            | other => (other, .leaked)

/-- The load pipeline of src/lib.rs:176-248 on a successfully read file. -/
def get_plugin_data (parse : List Byte → Option PeImage) (buf : List Byte) :
    LoadResult :=
  (get_plugin_data_traced parse (some buf)).1

/-- From src/rstr.rs:48-51, `RStr::as_str`: `CStr::from_ptr` scans forward
from the pointer for the first zero byte — with no bound, the terminator is
simply assumed — and `str::from_utf8_unchecked` takes the bytes before it
with no UTF-8 validation. The model scans inside the buffer; when no zero
byte occurs between `off` and the end of the buffer, the source's scan reads
past the end of the allocation, returned here as `none` (an out-of-bounds
read, not an error value the source could observe). -/
def rstr_as_str (buf : List Byte) (off : Nat) : Option (List Byte) :=
  if (buf.drop off).any (fun b => b == 0) then
    some ((buf.drop off).takeWhile (fun b => b != 0))
  else none

/-- From src/c.rs:10-16: `CPlugin`, the owned value handed across the C
boundary: the three strings copied out of the buffer into `CString`s (kept
here as their byte contents, terminator excluded) plus the version. -/
structure CPlugin where
  name : List Byte
  author : List Byte
  description : List Byte
  version : Version
deriving DecidableEq

/-- From src/c.rs:18-31, `TryFrom<Plugin> for CPlugin`: each field is read
through `RStr::as_str` and copied into a `CString`. `CString::new` fails only
on an interior zero byte, which a scan that stopped at the first zero byte
cannot produce; a `none` here is the out-of-bounds scan of `rstr_as_str`
propagating (the source would already have committed undefined behaviour). -/
def cplugin_try_from (buf : List Byte) (p : Plugin) : Option CPlugin :=
  match rstr_as_str buf p.name with
  | none => none
  | some n =>
    match rstr_as_str buf p.author with
    | none => none
    | some a =>
      match rstr_as_str buf p.description with
      | none => none
      | some d => some { name := n, author := a, description := d, version := p.version }

/-- Strict UTF-16 decoding of a list of 16-bit units into code points, as
`OsString::from_wide` followed by `OsStr::to_str` succeeds on Windows: a
basic-multilingual-plane unit stands alone, a high surrogate must be followed
by a low surrogate (the pair combines), and an unpaired surrogate of either
kind makes the whole conversion fail (`to_str` returns `None`). -/
def decodeUtf16 : List Nat → Option (List Nat)
  | [] => some []
  | u :: rest =>
    if u < 0xD800 ∨ 0xE000 ≤ u then
      (decodeUtf16 rest).map (fun cs => u :: cs)
    else if u < 0xDC00 then
      match rest with
      | [] => none
      | l :: rest2 =>
        if 0xDC00 ≤ l ∧ l < 0xE000 then
          (decodeUtf16 rest2).map (fun cs => (0x10000 + (u - 0xD800) * 0x400 + (l - 0xDC00)) :: cs)
        else none
    else none

/-- From src/c.rs:43-66, the exported C function `get_plugin_data` (the
handle-surface acquire): scan the wide string up to its zero terminator,
convert it from UTF-16 (`OsString::from_wide` then `to_str`), and only when
the conversion succeeds call the Rust loader on the path. `load` stands for
the Rust-side `get_plugin_data` applied to a path: it returns the decoded
plugin with its backing buffer, or `none` for any load failure. The returned
`Bool` records whether `load` was invoked; the `Option CPlugin` is the
returned pointer, `none` standing for the null sentinel. -/
def c_get_plugin_data (load : List Nat → Option (Plugin × List Byte))
    (dllWide : List Nat) : Option CPlugin × Bool :=
  match decodeUtf16 (dllWide.takeWhile (fun u => u != 0)) with
  | none => (none, false)
  | some path =>
    match load path with
    | none => (none, true)
    | some pb => (cplugin_try_from pb.2 pb.1, true)

/-- From src/c.rs:108-115, the exported C function `free_plugin`: it
reconstructs the `Box` from the raw pointer (`Box::from_raw`) and drops it,
with no null check. `Box::from_raw` requires a pointer obtained from
`Box::into_raw`/`Box::leak`; a null argument is undefined behaviour, so the
null case is `none` rather than a normal return. A valid handle is freed and
the call returns normally (`some ()`). -/
def free_plugin : Option CPlugin → Option Unit
  | none => none
  | some _ => some ()

/-- From src/lib.rs:144-148: the bounded writer over the raw allocation used
to populate the buffer: the count of bytes written so far, the allocation
size, and the allocation's contents (the `size` bytes behind `ptr`). -/
structure WriteableAlloc where
  written : Nat
  size : Nat
  data : List Byte
deriving DecidableEq

/-- From src/lib.rs:151-163, `WriteableAlloc::write`: if
`written + buf.len() > size` return the overflow error (`none`, the state
untouched); otherwise `ptr::copy` the chunk to offset `written`, advance the
counter by the chunk's length and return that length. -/
def WriteableAlloc.write (w : WriteableAlloc) (buf : List Byte) :
    WriteableAlloc × Option Nat :=
  if w.size < w.written + buf.length then (w, none)
  else
    ({ written := w.written + buf.length
       size := w.size
       data := w.data.take w.written ++ buf ++ w.data.drop (w.written + buf.length) },
     some buf.length)

/-- A sequence of writes, each on the state the previous one left (as
`io::copy` at src/lib.rs:203 performs chunked writes). -/
def write_seq (w : WriteableAlloc) : List (List Byte) → WriteableAlloc
  | [] => w
  | c :: cs => write_seq (w.write c).1 cs

/-- Rust's `usize::is_power_of_two` (true powers of two only; zero is not). -/
def isPow2 (n : Nat) : Bool := n != 0 && (n &&& (n - 1)) == 0

/-- The largest `isize` value of the 64-bit target. -/
def isizeMax : Nat := 2 ^ 63 - 1

/-- An allocation layout: requested size and alignment. -/
structure Layout where
  size : Nat
  align : Nat
deriving DecidableEq

/-- Rust's `Layout::from_size_align` (used at src/blob.rs:32): the alignment
must be a power of two and `size`, rounded up to the alignment, must not
overflow `isize` (std checks `size ≤ isize::MAX - (align - 1)`). -/
def layout_from_size_align (size align : Nat) : Option Layout :=
  if isPow2 align && decide (size + (align - 1) ≤ isizeMax) then
    some { size := size, align := align }
  else none

/-- From src/blob.rs:13-16: the owned buffer: its layout and its bytes. -/
structure Blob where
  layout : Layout
  data : List Byte
deriving DecidableEq

/-- From src/blob.rs:22-42, `Blob::new_zeroed`: build the layout from the
requested size and the process-cached allocation granularity, then
`alloc_zeroed` that many bytes. `granularity` is the value of the
`GRANULARITY` lazy static (`GetSystemInfo().dwAllocationGranularity`, queried
once per process). A failed `alloc_zeroed` (null) returns an error in the
source and is not modelled: the model is the successful allocation, which is
exactly `size` zero bytes. -/
def Blob.new_zeroed (granularity size : Nat) : Option Blob :=
  match layout_from_size_align size granularity with
  | none => none
  | some l => some { layout := l, data := List.replicate size 0 }

/-- The `LazyLock` cell holding the allocation granularity (src/blob.rs:23-30
and src/lib.rs:177-184): the cell's state is `none` before the first read and
`some v` after; a read of an initialised cell returns the cached value and
never evaluates the query again (`fresh`, the value a renewed system query
would produce, is ignored). -/
def lazy_get (cell : Option Nat) (fresh : Nat) : Nat × Option Nat :=
  match cell with
  | some v => (v, some v)
  | none => (fresh, some fresh)

/-- Modelled from the spec: the UTF-8 validity predicate of the DataCorrupt
check the specification prescribes for string spans ("validate the span
(excluding the terminator) as UTF-8"). RFC 3629 encoding: ASCII, and two- to
four-byte sequences with the proper continuation bytes, excluding overlong
forms, surrogate code points and values above U+10FFFF. The source performs
no such validation (`str::from_utf8_unchecked`, src/rstr.rs:50); this
definition only states what the claim asserts. -/
def isValidUtf8 : List Byte → Bool
  | [] => true
  | b :: rest =>
    if b ≤ 0x7F then isValidUtf8 rest
    else if 0xC2 ≤ b ∧ b ≤ 0xDF then
      match rest with
      | c1 :: r => decide (0x80 ≤ c1 ∧ c1 ≤ 0xBF) && isValidUtf8 r
      | [] => false
    else if b = 0xE0 then
      match rest with
      | c1 :: c2 :: r =>
        decide (0xA0 ≤ c1 ∧ c1 ≤ 0xBF) && decide (0x80 ≤ c2 ∧ c2 ≤ 0xBF) && isValidUtf8 r
      | _ => false
    else if (0xE1 ≤ b ∧ b ≤ 0xEC) ∨ b = 0xEE ∨ b = 0xEF then
      match rest with
      | c1 :: c2 :: r =>
        decide (0x80 ≤ c1 ∧ c1 ≤ 0xBF) && decide (0x80 ≤ c2 ∧ c2 ≤ 0xBF) && isValidUtf8 r
      | _ => false
    else if b = 0xED then
      match rest with
      | c1 :: c2 :: r =>
        decide (0x80 ≤ c1 ∧ c1 ≤ 0x9F) && decide (0x80 ≤ c2 ∧ c2 ≤ 0xBF) && isValidUtf8 r
      | _ => false
    else if b = 0xF0 then
      match rest with
      | c1 :: c2 :: c3 :: r =>
        decide (0x90 ≤ c1 ∧ c1 ≤ 0xBF) && decide (0x80 ≤ c2 ∧ c2 ≤ 0xBF) &&
          decide (0x80 ≤ c3 ∧ c3 ≤ 0xBF) && isValidUtf8 r
      | _ => false
    else if 0xF1 ≤ b ∧ b ≤ 0xF3 then
      match rest with
      | c1 :: c2 :: c3 :: r =>
        decide (0x80 ≤ c1 ∧ c1 ≤ 0xBF) && decide (0x80 ≤ c2 ∧ c2 ≤ 0xBF) &&
          decide (0x80 ≤ c3 ∧ c3 ≤ 0xBF) && isValidUtf8 r
      | _ => false
    else if b = 0xF4 then
      match rest with
      | c1 :: c2 :: c3 :: r =>
        decide (0x80 ≤ c1 ∧ c1 ≤ 0x8F) && decide (0x80 ≤ c2 ∧ c2 ≤ 0xBF) &&
          decide (0x80 ≤ c3 ∧ c3 ≤ 0xBF) && isValidUtf8 r
      | _ => false
    else false

/-- Byte image of a `Plugin` record (src/lib.rs layout): `data_ver`, the
three string virtual addresses, the three `u16` version components, and the
two trailing padding bytes. -/
def mkRecord (ver nameVA authorVA descVA mj mn pt : Nat) : List Byte :=
  leBytes 8 ver ++ leBytes 8 nameVA ++ leBytes 8 authorVA ++ leBytes 8 descVA ++
    leBytes 2 mj ++ leBytes 2 mn ++ leBytes 2 pt ++ [0, 0]

/-- A minimal conforming image view: base 4096, one section mapping RVA `r`
to file offset `r`, and the `PLUGIN_DATA` export pointing at RVA 0 (the
record sits at the start of the file). -/
def demoImage : PeImage :=
  { imageBase := 4096
    sizeOfImage := 4096
    exports := [("PLUGIN_DATA", some 0)]
    sections := [{ virtualAddress := 0, virtualSize := 4096, pointerToRawData := 0 }] }

/-- The parse outcome for the demo images: `PeFile::from_bytes` succeeds and
yields `demoImage` (header parsing itself is the external library's work). -/
def demoParse : List Byte → Option PeImage := fun _ => some demoImage

/-- The conforming file of the concrete scenario: the record at offset 0
declaring version tag 1, the three strings (virtual addresses 4096+40,
4096+47, 4096+54) and version 0.1.0, followed by the three zero-terminated
strings. -/
def loaderBuf : List Byte :=
  mkRecord 1 (4096 + 40) (4096 + 47) (4096 + 54) 0 1 0 ++
    strBytes "Loader" ++ [0] ++ strBytes "Cherry" ++ [0] ++
    strBytes "Plugin loader for Yet-Another-BG3-Native-Mod-Loader" ++ [0]

/-- C5: for a conforming image whose record declares name "Loader", author
"Cherry", description "Plugin loader for Yet-Another-BG3-Native-Mod-Loader"
and version 0.1.0, the load succeeds and the field accessors (the `RStr`
reads and the version field) return exactly those three strings and those
three numeric components. -/
theorem c5_concrete_scenario :
    get_plugin_data demoParse loaderBuf = LoadResult.ok ⟨1, 40, 47, 54, ⟨0, 1, 0⟩⟩ ∧
    rstr_as_str loaderBuf 40 = some (strBytes "Loader") ∧
    rstr_as_str loaderBuf 47 = some (strBytes "Cherry") ∧
    rstr_as_str loaderBuf 54 =
      some (strBytes "Plugin loader for Yet-Another-BG3-Native-Mod-Loader") ∧
    (⟨0, 1, 0⟩ : Version).major = 0 ∧ (⟨0, 1, 0⟩ : Version).minor = 1 ∧
    (⟨0, 1, 0⟩ : Version).patch = 0 := by
  decide

/-- A record whose version tag is 0 (outside [1, DATA_VERSION]) but whose
string references are valid: the name points at offset 40 ("A"), author and
description at offset 42 (the empty string). -/
def tagZeroBuf : List Byte :=
  mkRecord 0 (4096 + 40) (4096 + 42) (4096 + 42) 9 9 9 ++ [65, 0, 0]

/-- C1 counterexample: decoding the record whose 8-byte version tag is 0 —
outside [1, DATA_VERSION] — does not fail with any error: `get_plugin_data`
reads the whole record, translates all three string references and returns
the decoded plugin with `data_ver = 0`. The decoder has no version check at
all, so nothing is rejected and every byte of the record is read. -/
theorem c1_counterexample :
    get_plugin_data demoParse tagZeroBuf = LoadResult.ok ⟨0, 40, 42, 42, ⟨9, 9, 9⟩⟩ ∧
    ¬(1 ≤ (0 : Nat) ∧ (0 : Nat) ≤ DATA_VERSION) := by
  decide

/-- C1 amended: the decoder performs no version-tag check: decoding is
insensitive to the record's `data_ver` field, which is copied into the
result unchanged; a record with tag 0 or DATA_VERSION + 1 is decoded with
the current layout exactly as a record with a supported tag, and no
version-unsupported rejection exists. -/
theorem c1_no_version_check (img : PeImage) (buf : List Byte) (r : PluginRecord)
    (v : Nat) :
    decode_raw img buf { r with data_ver := v } =
      match decode_raw img buf r with
      | LoadResult.ok p => LoadResult.ok { p with data_ver := v }
      | other => other := by
  simp only [decode_raw]
  cases va_to_rstr img buf r.name_va <;>
    cases va_to_rstr img buf r.author_va <;>
      cases va_to_rstr img buf r.description_va <;> rfl

/-- A record whose string references translate successfully but whose string
data is broken: the name region at offset 40 is the invalid-UTF-8 byte 0xFF
followed by its terminator, the description at offset 42 is empty, and the
author region at offset 43 runs to the end of the buffer with no zero byte. -/
def corruptStrBuf : List Byte :=
  mkRecord 1 (4096 + 40) (4096 + 43) (4096 + 42) 0 0 0 ++ [255, 0, 0, 65, 66]

/-- C2 counterexample: on `corruptStrBuf` the load succeeds — no DataCorrupt
error exists anywhere. The name read yields the byte 0xFF, which is not
valid UTF-8, with no validation failure; the author read finds no zero byte
before the buffer ends, and instead of failing with DataCorrupt the source's
scan (`CStr::from_ptr`) runs past the end of the allocation — an
out-of-bounds read, modelled as `none`. -/
theorem c2_counterexample :
    get_plugin_data demoParse corruptStrBuf =
      LoadResult.ok ⟨1, 40, 43, 42, ⟨0, 0, 0⟩⟩ ∧
    rstr_as_str corruptStrBuf 40 = some [255] ∧
    isValidUtf8 [255] = false ∧
    rstr_as_str corruptStrBuf 43 = none ∧
    rstr_as_str corruptStrBuf 42 = some [] := by
  decide

/-- C2 amended: for each string reference the decoder translates virtual
address to RVA to file offset and propagates a translation failure; it
performs no terminator scan and no UTF-8 validation of its own — the string
view is built unconditionally. Reading the view scans for the first zero
byte: a zero at the first scanned position yields the zero-length string, a
region with no zero byte up to the end of the buffer makes the scan read out
of bounds (no DataCorrupt error), and a successful read returns the raw
bytes before the first zero with no UTF-8 validation. -/
theorem c2_no_validation :
    (∀ (img : PeImage) (buf : List Byte) (va : Nat),
      va_to_rstr img buf va =
        match va_to_rva img va with
        | none => none
        | some rva => rva_to_file_offset img buf.length rva) ∧
    (∀ (buf : List Byte) (off : Nat) (rest : List Byte),
      buf.drop off = 0 :: rest → rstr_as_str buf off = some []) ∧
    (∀ (buf : List Byte) (off : Nat),
      (∀ b ∈ buf.drop off, b ≠ 0) → rstr_as_str buf off = none) ∧
    (∀ (buf : List Byte) (off : Nat) (bs : List Byte),
      rstr_as_str buf off = some bs →
        bs = (buf.drop off).takeWhile (fun b => b != 0)) := by
  refine ⟨fun img buf va => rfl, ?_, ?_, ?_⟩
  · intro buf off rest h
    simp [rstr_as_str, h, List.takeWhile]
  · intro buf off h
    have hany : (buf.drop off).any (fun b => b == 0) = false := by
      simp only [List.any_eq_false]
      intro b hb
      simpa using h b hb
    simp [rstr_as_str, hany]
  · intro buf off bs h
    by_cases hany : (buf.drop off).any (fun b => b == 0) = true
    · simp only [rstr_as_str, if_pos hany, Option.some.injEq] at h
      exact h.symm
    · simp [rstr_as_str, hany] at h

/-- C2 amended, instantiated: the zero-length read at an immediate zero byte,
and the out-of-bounds scan on an unterminated region, each at a concrete
buffer, with the hypotheses discharged by evaluation. -/
theorem c2_no_validation_witness :
    rstr_as_str [7, 0] 1 = some [] ∧ rstr_as_str [7, 5] 0 = none :=
  ⟨c2_no_validation.2.1 [7, 0] 1 [] (by decide),
   c2_no_validation.2.2.1 [7, 5] 0 (by decide)⟩

/-- A truncated image: the `PLUGIN_DATA` export resolves to RVA 56, which the
section table maps to file offset 56 of a 64-byte file — in bounds, so
translation succeeds, but 56 + 40 > 64. -/
def truncImage : PeImage :=
  { imageBase := 4096
    sizeOfImage := 4096
    exports := [("PLUGIN_DATA", some 56)]
    sections := [{ virtualAddress := 0, virtualSize := 4096, pointerToRawData := 0 }] }

/-- The 64-byte truncated file (contents irrelevant; no byte of a full record
fits at offset 56). -/
def truncBuf : List Byte := List.replicate 64 7

/-- C3: on the truncated image the offset translation succeeds (56 is within
the buffer), the record does not fit (56 + 40 > 64), and `get_plugin_data`
does not return an error: it goes on to dereference the 40-byte record at
offset 56, an out-of-bounds read of 32 bytes past the allocation, modelled
as the undefined-behaviour outcome. -/
theorem c3_truncation_oob :
    rva_to_file_offset truncImage truncBuf.length 56 = some 56 ∧
    truncBuf.length < 56 + 40 ∧
    get_plugin_data (fun _ => some truncImage) truncBuf = LoadResult.ub := by
  decide

/-- A valid image view with an empty export directory: no `PLUGIN_DATA`. -/
def noExportImage : PeImage :=
  { imageBase := 4096
    sizeOfImage := 4096
    exports := []
    sections := [{ virtualAddress := 0, virtualSize := 4096, pointerToRawData := 0 }] }

/-- C4: on the error paths after the buffer allocation nothing is released.
An unparseable file returns the format error with the allocation leaked; an
image without the `PLUGIN_DATA` export returns the symbol-not-found error —
as the claim says — but the buffer is leaked there too, not released; and at
the C boundary a failed load does return the null sentinel. -/
theorem c4_error_path_leaks :
    get_plugin_data_traced (fun _ => none) (some [255]) =
      (LoadResult.err LoadErr.formatError, AllocFate.leaked) ∧
    get_plugin_data_traced (fun _ => some noExportImage) (some [255]) =
      (LoadResult.err LoadErr.symbolNotFound, AllocFate.leaked) ∧
    c_get_plugin_data (fun _ => none) [65, 0] = (none, true) := by
  decide

/-- C6 counterexample: passing the null sentinel to `free_plugin` is not a
normal no-op return: `Box::from_raw` on a null pointer violates its
precondition (undefined behaviour, `none`), whereas a no-op would return
normally (`some ()`). -/
theorem c6_counterexample :
    free_plugin none = none ∧ free_plugin none ≠ some () := by
  decide

/-- C6 amended: `free_plugin` performs no null check: a null argument
violates the documented precondition ("must be a pointer to a valid instance
of CPlugin") and is undefined behaviour rather than a no-op; a valid handle
is freed exactly once and the call returns normally. -/
theorem c6_no_null_check :
    free_plugin none = none ∧ ∀ p : CPlugin, free_plugin (some p) = some () :=
  ⟨rfl, fun _ => rfl⟩

/-- C7: `Blob::new_zeroed` allocates exactly `size` bytes, aligned to the
process allocation granularity, all zero before the file contents are copied
in; and the granularity cell is lazily initialised: once filled, a read
returns the cached value and ignores what a renewed system query would
produce, so the system is queried at most once per process. -/
theorem c7_blob_new_zeroed :
    (∀ gran size : Nat, isPow2 gran = true → size + (gran - 1) ≤ isizeMax →
      Blob.new_zeroed gran size =
        some { layout := { size := size, align := gran }
               data := List.replicate size 0 } ∧
      (List.replicate size (0 : Byte)).length = size ∧
      ∀ b ∈ List.replicate size (0 : Byte), b = 0) ∧
    (∀ v fresh : Nat, lazy_get (some v) fresh = (v, some v)) ∧
    ∀ fresh : Nat, lazy_get none fresh = (fresh, some fresh) := by
  refine ⟨?_, fun v fresh => rfl, fun fresh => rfl⟩
  intro gran size h1 h2
  refine ⟨?_, by simp, by simp⟩
  simp [Blob.new_zeroed, layout_from_size_align, h1, h2]

/-- C7, instantiated: a 3-byte file buffer at the usual 64 KiB granularity is
exactly three zero bytes with the granularity as alignment, and the
initialised granularity cell returns its cached value unchanged. -/
theorem c7_blob_new_zeroed_witness :
    Blob.new_zeroed 65536 3 =
      some { layout := { size := 3, align := 65536 }
             data := List.replicate 3 0 } ∧
    lazy_get (some 65536) 4096 = (65536, some 65536) :=
  ⟨(c7_blob_new_zeroed.1 65536 3 (by decide) (by decide)).1,
   c7_blob_new_zeroed.2.1 65536 4096⟩

/-- C8: the load is deterministic in the file bytes: for one fixed byte
content (and one parse function over it), two successful loads return equal
plugins, hence equal name, author and description reads and equal version
components. -/
theorem c8_load_deterministic (parse : List Byte → Option PeImage)
    (buf : List Byte) (p q : Plugin)
    (hp : get_plugin_data parse buf = LoadResult.ok p)
    (hq : get_plugin_data parse buf = LoadResult.ok q) :
    p = q ∧ rstr_as_str buf p.name = rstr_as_str buf q.name ∧
    rstr_as_str buf p.author = rstr_as_str buf q.author ∧
    rstr_as_str buf p.description = rstr_as_str buf q.description ∧
    p.version = q.version := by
  rw [hp] at hq
  injection hq with h
  subst h
  exact ⟨rfl, rfl, rfl, rfl, rfl⟩

/-- C8, instantiated at the conforming demo file: both hypotheses are
discharged by evaluating the load on `loaderBuf`. -/
theorem c8_load_deterministic_witness :
    (⟨1, 40, 47, 54, ⟨0, 1, 0⟩⟩ : Plugin) = ⟨1, 40, 47, 54, ⟨0, 1, 0⟩⟩ ∧
    rstr_as_str loaderBuf (⟨1, 40, 47, 54, ⟨0, 1, 0⟩⟩ : Plugin).name =
      rstr_as_str loaderBuf (⟨1, 40, 47, 54, ⟨0, 1, 0⟩⟩ : Plugin).name ∧
    rstr_as_str loaderBuf (⟨1, 40, 47, 54, ⟨0, 1, 0⟩⟩ : Plugin).author =
      rstr_as_str loaderBuf (⟨1, 40, 47, 54, ⟨0, 1, 0⟩⟩ : Plugin).author ∧
    rstr_as_str loaderBuf (⟨1, 40, 47, 54, ⟨0, 1, 0⟩⟩ : Plugin).description =
      rstr_as_str loaderBuf (⟨1, 40, 47, 54, ⟨0, 1, 0⟩⟩ : Plugin).description ∧
    (⟨1, 40, 47, 54, ⟨0, 1, 0⟩⟩ : Plugin).version =
      (⟨1, 40, 47, 54, ⟨0, 1, 0⟩⟩ : Plugin).version :=
  c8_load_deterministic demoParse loaderBuf ⟨1, 40, 47, 54, ⟨0, 1, 0⟩⟩
    ⟨1, 40, 47, 54, ⟨0, 1, 0⟩⟩ (by decide) (by decide)

/-- C9: the bounded writer never writes outside its buffer: an over-long
chunk is refused with the state unchanged; an accepted chunk of length L is
copied to exactly the L bytes at offset `written` (allocation length
unchanged), the counter advances by exactly L, and over any sequence of
writes the counter never exceeds the buffer size. -/
theorem c9_bounded_writer :
    (∀ (w : WriteableAlloc) (buf : List Byte),
      w.size < w.written + buf.length → w.write buf = (w, none)) ∧
    (∀ (w : WriteableAlloc) (buf : List Byte),
      w.written + buf.length ≤ w.size →
      (w.write buf).2 = some buf.length ∧
      (w.write buf).1.written = w.written + buf.length ∧
      (w.write buf).1.size = w.size ∧
      (w.write buf).1.data =
        w.data.take w.written ++ buf ++ w.data.drop (w.written + buf.length) ∧
      (w.data.length = w.size →
        (w.write buf).1.data.length = w.size ∧
        ((w.write buf).1.data.drop w.written).take buf.length = buf)) ∧
    ∀ (w : WriteableAlloc) (chunks : List (List Byte)),
      w.written ≤ w.size → (write_seq w chunks).written ≤ w.size := by
  refine ⟨?_, ?_, ?_⟩
  · intro w buf h
    simp [WriteableAlloc.write, h]
  · intro w buf h
    have hnot : ¬ w.size < w.written + buf.length := by omega
    refine ⟨by simp [WriteableAlloc.write, hnot], by simp [WriteableAlloc.write, hnot],
      by simp [WriteableAlloc.write, hnot], by simp [WriteableAlloc.write, hnot], ?_⟩
    intro hlen
    have hw : w.written ≤ w.data.length := by omega
    have hpre : (w.data.take w.written).length = w.written := by
      simp [List.length_take]
      omega
    constructor
    · simp [WriteableAlloc.write, hnot, List.length_take, List.length_drop]
      omega
    · have hdata : (w.write buf).1.data =
          w.data.take w.written ++ (buf ++ w.data.drop (w.written + buf.length)) := by
        simp [WriteableAlloc.write, hnot]
      rw [hdata, List.drop_left' hpre, List.take_left' rfl]
  · intro w chunks
    induction chunks generalizing w with
    | nil => intro h; exact h
    | cons c cs ih =>
      intro h
      show (write_seq (w.write c).1 cs).written ≤ w.size
      by_cases hc : w.size < w.written + c.length
      · have : (w.write c).1 = w := by simp [WriteableAlloc.write, hc]
        rw [this]
        exact ih w h
      · have h1 : (w.write c).1.written = w.written + c.length := by
          simp [WriteableAlloc.write, hc]
        have h2 : (w.write c).1.size = w.size := by
          simp [WriteableAlloc.write, hc]
        have := ih (w.write c).1 (by rw [h1, h2]; omega)
        rwa [h2] at this

/-- C9, instantiated on a 2-byte buffer: a 3-byte chunk is refused with the
state unchanged, and a sequence of three 1-byte writes leaves the counter
within the size. -/
theorem c9_bounded_writer_witness :
    WriteableAlloc.write ⟨0, 2, [9, 9]⟩ [1, 2, 3] = (⟨0, 2, [9, 9]⟩, none) ∧
    (write_seq ⟨0, 2, [9, 9]⟩ [[1], [2], [3]]).written ≤ 2 :=
  ⟨c9_bounded_writer.1 ⟨0, 2, [9, 9]⟩ [1, 2, 3] (by decide),
   c9_bounded_writer.2.2 ⟨0, 2, [9, 9]⟩ [[1], [2], [3]] (by decide)⟩

/-- C10: a wide-string path whose UTF-16 contents (up to the terminator) do
not convert to a string — an unpaired surrogate — makes the C-boundary
acquire return the null sentinel without ever invoking the file-loading
path: the returned flag records that the loader was not called, for every
possible loader. -/
theorem c10_invalid_utf16_no_open (load : List Nat → Option (Plugin × List Byte))
    (dllWide : List Nat)
    (h : decodeUtf16 (dllWide.takeWhile (fun u => u != 0)) = none) :
    c_get_plugin_data load dllWide = (none, false) := by
  unfold c_get_plugin_data
  rw [h]

/-- C10, instantiated: the wide string holding one lone high surrogate
(0xD800) and its terminator yields null with the loader never invoked. -/
theorem c10_invalid_utf16_no_open_witness :
    c_get_plugin_data (fun _ => none) [0xD800, 0] = (none, false) :=
  c10_invalid_utf16_no_open (fun _ => none) [0xD800, 0] (by decide)
